import Mathlib

/-!
Shallow embedding of the GKM-CLI repipe command (src/commands/repipe.rs) and
the CI helper functions (src/commands/ci.rs).  External collaborators (the
environment, the filesystem, the spruce and fly subprocesses) are supplied as
oracles in a World record; each step of the command returns its result
together with the list of observable effects it performs, in order.
-/

namespace GkmCli

/-- Command-line options for the repipe command (struct RepipeOptions). -/
structure RepipeOptions where
  validate : Nat := 0
  dry_run : Nat := 0
  pause : Bool := false
  expose : Option Bool := none
  open_browser : Nat := 0
  yes : Bool := false
  fly_path : Option String := none
  deriving DecidableEq, Repr

/-- Metadata extracted from the merged pipeline configuration (struct PipelineMeta). -/
structure PipelineMeta where
  target : Option String := none
  url : Option String := none
  team : Option String := none
  pipeline : Option String := none
  name : Option String := none
  exposed : Option Bool := none
  deriving DecidableEq, Repr

/-- The mutable state of one repipe command execution (struct RepipeCommand). -/
structure RepipeCommand where
  options : RepipeOptions
  base_dir : String
  settings_file : String
  meta : Option PipelineMeta
  target : String
  pipeline : String
  deriving DecidableEq, Repr

/-- Errors the command can abort with, one constructor per bail or error
propagation site in the source. -/
inductive RErr where
  | requiredToolMissing (tool : String)
  | flyPathNotExecutable
  | settingsNotFound
  | mergeFailed
  | metaExtractFailed
  | metaParseFailed
  | missingTarget
  | missingPipelineName
  | homeNotSet
  | flyrcReadFailed
  | flyrcParseFailed
  | targetUrlNotFound
  | targetUrlMismatch
  | targetTeamNotFound
  | targetTeamMismatch
  | directoryNotFound (kit : String)
  | ioError (what : String)
  deriving DecidableEq, Repr

/-- Observable effects of one command execution, in order. -/
inductive Eff where
  | spawn (prog : String) (args : List String)
  | spawnPiped (prog : String) (args : List String) (stdinData : String)
  | writeFile (path : String) (contents : String)
  | readFileEff (path : String)
  | removeDirAll (path : String)
  | printStdout (s : String)
  | setCurrentDir (path : String)
  | openBrowser (url : String)
  deriving DecidableEq, Repr

/-- One entry of the targets table of the .flyrc credentials file; a missing
field models a JSON value on which as_str returns None. -/
structure FlyTarget where
  api : Option String := none
  team : Option String := none
  deriving DecidableEq, Repr

/-- The parsed .flyrc credentials file: its targets key as an association
list.  A JSON document without a targets key is modelled by an empty list. -/
structure Flyrc where
  targets : List (String × FlyTarget)
  deriving DecidableEq, Repr

/-- External-world oracle: environment variables, filesystem, and the
results of subprocess invocations.  A result of none models an operation
whose underlying system call failed (spawn error, read error, and so on). -/
structure World where
  envVar : String → Option String
  fileExists : String → Bool
  readFile : String → Option String
  tempDirResult : Option String
  runOutput : String → List String → Option (Bool × String)
  runPipedOutput : String → List String → String → Option (Bool × String)
  runStatus : String → List String → Option Int
  parseMeta : String → Option PipelineMeta
  parseFlyrc : String → Option Flyrc
  flyPathMeta : String → Option Bool
  openResult : String → Option String

/-- RepipeCommand::new: records the current working directory as base_dir and
initialises the defaults; it performs no directory resolution and no
directory change. -/
def RepipeCommand.new (options : RepipeOptions) (cwd : String) : RepipeCommand :=
  { options := options
    base_dir := cwd
    settings_file := "settings.yml"
    meta := none
    target := ""
    pipeline := "" }

/-- RepipeCommand::check_command: runs which on the given name and fails when
it is not found. -/
def check_command (w : World) (cmd : String) : Except RErr Unit × List Eff :=
  match w.runOutput "which" [cmd] with
  | none => (.error (.ioError "which"), [.spawn "which" [cmd]])
  | some (ok, _) =>
      if ok then (.ok (), [.spawn "which" [cmd]])
      else (.error (.requiredToolMissing cmd), [.spawn "which" [cmd]])

/-- RepipeCommand::check_requirements: verifies which, spruce, jq and fly
(or the explicit fly path) before anything else runs. -/
def check_requirements (st : RepipeCommand) (w : World) : Except RErr Unit × List Eff :=
  match w.runOutput "which" ["which"] with
  | none => (.error (.ioError "which which"), [.spawn "which" ["which"]])
  | some _ =>
    match (check_command w "spruce").1 with
    | .error e => (.error e, Eff.spawn "which" ["which"] :: (check_command w "spruce").2)
    | .ok _ =>
      match (check_command w "jq").1 with
      | .error e =>
          (.error e,
           Eff.spawn "which" ["which"] :: ((check_command w "spruce").2 ++ (check_command w "jq").2))
      | .ok _ =>
        match st.options.fly_path with
        | some fp =>
          (match w.flyPathMeta fp with
           | none =>
               (.error (.ioError "fly metadata"),
                Eff.spawn "which" ["which"]
                  :: ((check_command w "spruce").2 ++ (check_command w "jq").2))
           | some isExec =>
             if isExec then
               (.ok (),
                Eff.spawn "which" ["which"]
                  :: ((check_command w "spruce").2 ++ (check_command w "jq").2))
             else
               (.error .flyPathNotExecutable,
                Eff.spawn "which" ["which"]
                  :: ((check_command w "spruce").2 ++ (check_command w "jq").2)))
        | none =>
          ((check_command w "fly").1,
           Eff.spawn "which" ["which"]
             :: ((check_command w "spruce").2 ++ (check_command w "jq").2
                  ++ (check_command w "fly").2))

/-- Replacement of every occurrence of one character by another, the effect
of str::replace with a single-character pattern and replacement. -/
def replaceChar (s : String) (c r : Char) : String :=
  String.mk (s.data.map fun ch => if ch = c then r else ch)

/-- The candidate target-specific settings filename: the CONCOURSE_TARGET
value with slashes replaced by dashes and spaces by underscores, wrapped in
settings-....yml. -/
def settingsTargetFile (target : String) : String :=
  "settings-" ++ replaceChar (replaceChar target '/' '-') ' ' '_' ++ ".yml"

/-- RepipeCommand::find_settings_file: prefers the target-specific file when
CONCOURSE_TARGET is set and that file exists, else keeps the current
settings_file (settings.yml initially); fails when the chosen file is
missing. -/
def find_settings_file (st : RepipeCommand) (w : World) : Except RErr String :=
  let sf :=
    match w.envVar "CONCOURSE_TARGET" with
    | some target =>
        let target_file := settingsTargetFile target
        if w.fileExists target_file then target_file else st.settings_file
    | none => st.settings_file
  if w.fileExists sf then .ok sf else .error .settingsNotFound

/-- The argument list of the single spruce merge invocation of
RepipeCommand::merge_pipeline_config.  The fourth argument is the literal,
unexpanded pattern built with format from base_dir. -/
def spruceMergeArgs (st : RepipeCommand) : List String :=
  ["merge", "--fallback-append", "pipeline/base.yml",
   st.base_dir ++ "/pipeline/*/*.yml", st.settings_file]

/-- Runs one optional build script when the file exists; only a spawn
failure is propagated, the exit status is ignored. -/
def runBuildScript (w : World) (script : String) : Except RErr Unit × List Eff :=
  if w.fileExists script then
    match w.runStatus ("./" ++ script) [] with
    | none => (.error (.ioError script), [.spawn ("./" ++ script) []])
    | some _ => (.ok (), [.spawn ("./" ++ script) []])
  else (.ok (), [])

/-- The body of RepipeCommand::merge_pipeline_config after the temporary
directory has been created at td: build scripts, the spruce merge, and the
write of the merged document into the temporary directory. -/
def merge_inner (st : RepipeCommand) (w : World) (td : String) : Except RErr String × List Eff :=
  match (runBuildScript w "scripts/build-test-jobs").1 with
  | .error e => (.error e, (runBuildScript w "scripts/build-test-jobs").2)
  | .ok _ =>
    match (runBuildScript w "scripts/build-upstream-jobs").1 with
    | .error e =>
        (.error e,
         (runBuildScript w "scripts/build-test-jobs").2
           ++ (runBuildScript w "scripts/build-upstream-jobs").2)
    | .ok _ =>
      match w.runOutput "spruce" (spruceMergeArgs st) with
      | none =>
          (.error (.ioError "spruce merge"),
           (runBuildScript w "scripts/build-test-jobs").2
             ++ (runBuildScript w "scripts/build-upstream-jobs").2
             ++ [.spawn "spruce" (spruceMergeArgs st)])
      | some (ok, out) =>
        if ok then
          (.ok out,
           (runBuildScript w "scripts/build-test-jobs").2
             ++ (runBuildScript w "scripts/build-upstream-jobs").2
             ++ [.spawn "spruce" (spruceMergeArgs st),
                 .writeFile (td ++ "/.deploy.yml") out])
        else
          (.error .mergeFailed,
           (runBuildScript w "scripts/build-test-jobs").2
             ++ (runBuildScript w "scripts/build-upstream-jobs").2
             ++ [.spawn "spruce" (spruceMergeArgs st)])

/-- RepipeCommand::merge_pipeline_config: creates a temporary directory,
runs the merge, and — because the TempDir value is dropped when the function
returns, on success and on error alike — removes the whole temporary
directory at the end. -/
def merge_pipeline_config (st : RepipeCommand) (w : World) : Except RErr String × List Eff :=
  match w.tempDirResult with
  | none => (.error (.ioError "tempdir"), [])
  | some td =>
    ((merge_inner st w td).1, (merge_inner st w td).2 ++ [.removeDirAll td])

/-- The argument list of the spruce cherry-pick invocation in
RepipeCommand::extract_meta. -/
def cherryArgs : List String := ["merge", "--skip-eval", "--cherry-pick", "meta", "-"]

/-- RepipeCommand::extract_meta: cherry-picks the meta block from the merged
document through spruce with the document piped on stdin, parses it, and
resolves the target (meta.target, else CONCOURSE_TARGET) and the pipeline
name (meta.pipeline, else meta.name). -/
def extract_meta (st : RepipeCommand) (w : World) (config : String) :
    Except RErr RepipeCommand × List Eff :=
  match w.runPipedOutput "spruce" cherryArgs config with
  | none => (.error (.ioError "spruce cherry-pick"), [.spawnPiped "spruce" cherryArgs config])
  | some (ok, out) =>
    if ok then
      match w.parseMeta out with
      | none => (.error .metaParseFailed, [.spawnPiped "spruce" cherryArgs config])
      | some m =>
        match m.target.orElse fun _ => w.envVar "CONCOURSE_TARGET" with
        | none => (.error .missingTarget, [.spawnPiped "spruce" cherryArgs config])
        | some t =>
          match m.pipeline.orElse fun _ => m.name with
          | none => (.error .missingPipelineName, [.spawnPiped "spruce" cherryArgs config])
          | some p =>
            (.ok { st with meta := some m, target := t, pipeline := p },
             [.spawnPiped "spruce" cherryArgs config])
    else (.error .metaExtractFailed, [.spawnPiped "spruce" cherryArgs config])

/-- Looks the resolved target up in the targets table of the credentials
file, as indexing the parsed JSON does. -/
def lookupTarget (f : Flyrc) (t : String) : Option FlyTarget :=
  f.targets.lookup t

/-- The team half of RepipeCommand::validate_target, reached once the URL
check has passed or been skipped. -/
def checkTeam (m : PipelineMeta) (flyrc : Flyrc) (target : String) : Except RErr Unit :=
  match m.team with
  | some pipeline_team =>
    match (lookupTarget flyrc target).bind FlyTarget.team with
    | none => .error .targetTeamNotFound
    | some target_team =>
      if pipeline_team ≠ target_team then .error .targetTeamMismatch else .ok ()
  | none => .ok ()

/-- RepipeCommand::validate_target: reads HOME/.flyrc, parses it, and checks
the metadata URL and team against the credentials entry of the resolved
target; a check whose metadata field is absent is skipped. -/
def validate_target (st : RepipeCommand) (w : World) : Except RErr Unit × List Eff :=
  match w.envVar "HOME" with
  | none => (.error .homeNotSet, [])
  | some home =>
    match w.readFile (home ++ "/.flyrc") with
    | none => (.error .flyrcReadFailed, [.readFileEff (home ++ "/.flyrc")])
    | some s =>
      match w.parseFlyrc s with
      | none => (.error .flyrcParseFailed, [.readFileEff (home ++ "/.flyrc")])
      | some flyrc =>
        let res :=
          match st.meta with
          | none => Except.ok ()
          | some m =>
            match m.url with
            | some pipeline_url =>
              match (lookupTarget flyrc st.target).bind FlyTarget.api with
              | none => Except.error RErr.targetUrlNotFound
              | some target_url =>
                if pipeline_url ≠ target_url then Except.error RErr.targetUrlMismatch
                else checkTeam m flyrc st.target
            | none => checkTeam m flyrc st.target
        (res, [.readFileEff (home ++ "/.flyrc")])

/-- The fly executable used: the explicit fly_path option, else fly. -/
def flyCmd (st : RepipeCommand) : String := st.options.fly_path.getD "fly"

/-- Arguments of the fly validate-pipeline call. -/
def validateArgs (st : RepipeCommand) : List String :=
  ["--target", st.target, "validate-pipeline"]
    ++ (if st.options.validate ≥ 2 then ["--strict"] else [])
    ++ ["--config", ".deploy.yml"]

/-- Arguments of the fly set-pipeline call. -/
def setPipelineArgs (st : RepipeCommand) : List String :=
  ["--target", st.target, "set-pipeline", "--pipeline", st.pipeline,
   "--config", ".deploy.yml"]
    ++ (if st.options.yes then ["--non-interactive"] else [])

/-- Arguments of the fly pause-pipeline or unpause-pipeline call. -/
def pauseArgs (st : RepipeCommand) : List String :=
  ["--target", st.target,
   (if st.options.pause then "pause" else "unpause") ++ "-pipeline",
   "--pipeline", st.pipeline]

/-- The resolved exposure: the explicit expose option, else the exposed flag
of the extracted metadata, else false. -/
def resolvedExpose (st : RepipeCommand) : Bool :=
  st.options.expose.getD ((st.meta.bind PipelineMeta.exposed).getD false)

/-- Arguments of the fly expose-pipeline or hide-pipeline call. -/
def exposeArgs (st : RepipeCommand) : List String :=
  ["--target", st.target,
   (if resolvedExpose st then "expose" else "hide") ++ "-pipeline",
   "--pipeline", st.pipeline]

/-- The mode dispatch block of RepipeCommand::execute: validate mode, else
dry-run mode (print the contents of the relative path .deploy.yml), else
apply mode issuing set-pipeline, pause or unpause, expose or hide.  Each fly
invocation uses Command::status, whose exit code is never inspected: only a
spawn failure aborts. -/
def dispatch (st : RepipeCommand) (w : World) : Except RErr Unit × List Eff :=
  if st.options.validate > 0 then
    match w.runStatus (flyCmd st) (validateArgs st) with
    | none => (.error (.ioError "fly validate"), [.spawn (flyCmd st) (validateArgs st)])
    | some _ => (.ok (), [.spawn (flyCmd st) (validateArgs st)])
  else if st.options.dry_run > 0 then
    match w.readFile ".deploy.yml" with
    | none => (.error (.ioError "read .deploy.yml"), [.readFileEff ".deploy.yml"])
    | some s => (.ok (), [.readFileEff ".deploy.yml", .printStdout s])
  else
    match w.runStatus (flyCmd st) (setPipelineArgs st) with
    | none => (.error (.ioError "fly set-pipeline"), [.spawn (flyCmd st) (setPipelineArgs st)])
    | some _ =>
      match w.runStatus (flyCmd st) (pauseArgs st) with
      | none => (.error (.ioError "fly pause"),
                 [.spawn (flyCmd st) (setPipelineArgs st), .spawn (flyCmd st) (pauseArgs st)])
      | some _ =>
        match w.runStatus (flyCmd st) (exposeArgs st) with
        | none => (.error (.ioError "fly expose"),
                   [.spawn (flyCmd st) (setPipelineArgs st), .spawn (flyCmd st) (pauseArgs st),
                    .spawn (flyCmd st) (exposeArgs st)])
        | some _ => (.ok (),
                     [.spawn (flyCmd st) (setPipelineArgs st), .spawn (flyCmd st) (pauseArgs st),
                      .spawn (flyCmd st) (exposeArgs st)])

/-- The browser URL built from the metadata URL, the metadata team and the
resolved pipeline name. -/
def pipelineUrl (st : RepipeCommand) : String :=
  ((st.meta.bind PipelineMeta.url).getD "") ++ "/teams/"
    ++ ((st.meta.bind PipelineMeta.team).getD "") ++ "/pipelines/" ++ st.pipeline

/-- The final browser-opening step; a failure to open is non-fatal and only
prints the URL. -/
def open_browser_step (st : RepipeCommand) (w : World) : List Eff :=
  if st.options.open_browser > 0 then
    match w.openResult (pipelineUrl st) with
    | none => [.openBrowser (pipelineUrl st)]
    | some e =>
        [.openBrowser (pipelineUrl st),
         .printStdout ("Could not open the browser automatically: " ++ e),
         .printStdout "Here is the URL you can open manually:",
         .printStdout ("  " ++ pipelineUrl st)]
  else []

/-- Sequencing of two effectful steps: the second runs only when the first
succeeded, and the effect lists are concatenated. -/
def andThen (a : Except RErr α × List Eff) (f : α → Except RErr β × List Eff) :
    Except RErr β × List Eff :=
  match a.1 with
  | .error e => (.error e, a.2)
  | .ok x => ((f x).1, a.2 ++ (f x).2)

/-- A step without effects. -/
def noEff (r : Except RErr α) : Except RErr α × List Eff := (r, [])

/-- RepipeCommand::execute: requirements check, settings discovery, merge,
metadata extraction, target validation, mode dispatch, optional browser
opening, strictly in this order, aborting at the first failing step. -/
def execute (st0 : RepipeCommand) (w : World) : Except RErr Unit × List Eff :=
  andThen (check_requirements st0 w) fun _ =>
  andThen (noEff (find_settings_file st0 w)) fun sf =>
  andThen (merge_pipeline_config { st0 with settings_file := sf } w) fun config =>
  andThen (extract_meta { st0 with settings_file := sf } w config) fun st2 =>
  andThen (validate_target st2 w) fun _ =>
  andThen (dispatch st2 w) fun _ =>
  (.ok (), open_browser_step st2 w)

/-- The third candidate of find_ci_directory: parent-of-cwd joined with ci,
degenerating to the default empty path when cwd has no parent. -/
def parentCiCandidate : Option String → String
  | some p => p ++ "/ci"
  | none => ""

/-- find_ci_directory from src/commands/ci.rs: the first existing of
cwd/kit/ci, cwd/ci and parent-of-cwd/ci. -/
def find_ci_directory (kit : String) (cwd : String) (parent : Option String)
    (fileExists : String → Bool) : Except RErr String :=
  let possible_paths :=
    [cwd ++ "/" ++ kit ++ "/ci", cwd ++ "/ci", parentCiCandidate parent]
  match possible_paths.find? fileExists with
  | some p => .ok p
  | none => .error (.directoryNotFound kit)

/-- A spawned subprocess is a remote-orchestrator call exactly when its
first argument is the --target selector; every fly invocation of the
dispatcher has this shape and no other spawned process does. -/
def isOrchestratorCall : Eff → Bool
  | .spawn _ args => args.head? == some "--target"
  | _ => false

/-- Recognises a change of the process working directory. -/
def isChdir : Eff → Bool
  | .setCurrentDir _ => true
  | _ => false

/-- The paths of all file writes in an effect list. -/
def writesOf (effs : List Eff) : List String :=
  effs.filterMap fun e =>
    match e with
    | .writeFile p _ => some p
    | _ => none

theorem writesOf_append (a b : List Eff) : writesOf (a ++ b) = writesOf a ++ writesOf b := by
  unfold writesOf
  exact List.filterMap_append a b _

theorem andThen_fst_error {α β : Type} (a : Except RErr α × List Eff)
    (f : α → Except RErr β × List Eff) (e : RErr) (h : a.1 = .error e) :
    andThen a f = (.error e, a.2) := by
  unfold andThen
  rw [h]

theorem andThen_ok {α β : Type} (a : Except RErr α × List Eff)
    (f : α → Except RErr β × List Eff) (x : α) (h : a.1 = .ok x) :
    andThen a f = ((f x).1, a.2 ++ (f x).2) := by
  unfold andThen
  rw [h]

theorem check_command_snd (w : World) (cmd : String) :
    (check_command w cmd).2 = [Eff.spawn "which" [cmd]] := by
  unfold check_command
  split
  · rfl
  · split <;> rfl

theorem check_command_error (w : World) (cmd : String) (e : RErr)
    (h : (check_command w cmd).1 = .error e) :
    (∃ s, e = .ioError s) ∨ ∃ c, e = .requiredToolMissing c := by
  unfold check_command at h
  split at h
  · simp at h
    exact Or.inl ⟨_, h.symm⟩
  · split at h <;> simp at h
    exact Or.inr ⟨_, h.symm⟩

theorem check_requirements_effs (st : RepipeCommand) (w : World) :
    ∀ e ∈ (check_requirements st w).2,
      e ∈ [Eff.spawn "which" ["which"], Eff.spawn "which" ["spruce"],
           Eff.spawn "which" ["jq"], Eff.spawn "which" ["fly"]] := by
  intro e he
  unfold check_requirements at he
  repeat' split at he
  all_goals simp_all [check_command_snd]
  all_goals tauto

theorem check_requirements_error (st : RepipeCommand) (w : World) (e : RErr)
    (h : (check_requirements st w).1 = .error e) :
    (∃ s, e = .ioError s) ∨ (∃ c, e = .requiredToolMissing c)
      ∨ e = .flyPathNotExecutable := by
  unfold check_requirements at h
  split at h
  · simp at h
    exact Or.inl ⟨_, h.symm⟩
  · split at h
    · rename_i heq
      simp at h
      rcases check_command_error w "spruce" e (h ▸ heq) with h1 | h1
      · exact Or.inl h1
      · exact Or.inr (Or.inl h1)
    · split at h
      · rename_i heq
        simp at h
        rcases check_command_error w "jq" e (h ▸ heq) with h1 | h1
        · exact Or.inl h1
        · exact Or.inr (Or.inl h1)
      · split at h
        · split at h
          · simp at h
            exact Or.inl ⟨_, h.symm⟩
          · split at h <;> simp_all
        · simp at h
          rcases check_command_error w "fly" e h with h1 | h1
          · exact Or.inl h1
          · exact Or.inr (Or.inl h1)

theorem find_settings_file_error (st : RepipeCommand) (w : World) (e : RErr)
    (h : find_settings_file st w = .error e) : e = .settingsNotFound := by
  unfold find_settings_file at h
  split at h <;> dsimp only at h
  all_goals repeat' split at h
  all_goals simp_all

theorem runBuildScript_snd (w : World) (s : String) :
    (runBuildScript w s).2 =
      if w.fileExists s then [Eff.spawn ("./" ++ s) []] else [] := by
  unfold runBuildScript
  repeat' split
  all_goals simp_all

theorem runBuildScript_error (w : World) (s : String) (e : RErr)
    (h : (runBuildScript w s).1 = .error e) : ∃ m, e = .ioError m := by
  unfold runBuildScript at h
  repeat' split at h
  all_goals simp_all
  exact ⟨_, h.symm⟩

theorem merge_inner_error (st : RepipeCommand) (w : World) (td : String) (e : RErr)
    (h : (merge_inner st w td).1 = .error e) :
    (∃ m, e = .ioError m) ∨ e = .mergeFailed := by
  unfold merge_inner at h
  split at h
  · rename_i heq
    simp at h
    exact Or.inl (runBuildScript_error w _ e (h ▸ heq))
  · split at h
    · rename_i heq
      simp at h
      exact Or.inl (runBuildScript_error w _ e (h ▸ heq))
    · split at h
      · simp at h
        exact Or.inl ⟨_, h.symm⟩
      · split at h <;> simp_all

theorem merge_pipeline_config_error (st : RepipeCommand) (w : World) (e : RErr)
    (h : (merge_pipeline_config st w).1 = .error e) :
    (∃ m, e = .ioError m) ∨ e = .mergeFailed := by
  unfold merge_pipeline_config at h
  split at h
  · simp at h
    exact Or.inl ⟨_, h.symm⟩
  · exact merge_inner_error st w _ e h

theorem merge_inner_writes (st : RepipeCommand) (w : World) (td : String) :
    ∀ p ∈ writesOf (merge_inner st w td).2, p = td ++ "/.deploy.yml" := by
  unfold merge_inner
  repeat' split
  all_goals simp only [runBuildScript_snd]
  all_goals repeat' split
  all_goals simp [writesOf]

theorem merge_pipeline_config_writes (st : RepipeCommand) (w : World) :
    ∀ p ∈ writesOf (merge_pipeline_config st w).2,
      ∃ td, w.tempDirResult = some td ∧ p = td ++ "/.deploy.yml" := by
  intro p hp
  unfold merge_pipeline_config at hp
  split at hp
  · simp [writesOf] at hp
  · rename_i td heq
    rw [writesOf_append] at hp
    rcases List.mem_append.mp hp with hp | hp
    · exact ⟨td, heq, merge_inner_writes st w td p hp⟩
    · simp [writesOf] at hp

theorem merge_inner_no_orch (st : RepipeCommand) (w : World) (td : String) :
    ∀ e ∈ (merge_inner st w td).2, isOrchestratorCall e = false := by
  unfold merge_inner
  repeat' split
  all_goals simp only [runBuildScript_snd]
  all_goals repeat' split
  all_goals simp [isOrchestratorCall, spruceMergeArgs]

theorem merge_pipeline_config_no_orch (st : RepipeCommand) (w : World) :
    ∀ e ∈ (merge_pipeline_config st w).2, isOrchestratorCall e = false := by
  intro e he
  unfold merge_pipeline_config at he
  split at he
  · simp at he
  · rcases List.mem_append.mp he with he | he
    · exact merge_inner_no_orch st w _ e he
    · simp at he
      simp [he, isOrchestratorCall]

theorem extract_meta_snd (st : RepipeCommand) (w : World) (config : String) :
    (extract_meta st w config).2 = [Eff.spawnPiped "spruce" cherryArgs config] := by
  unfold extract_meta
  repeat' split
  all_goals rfl

theorem extract_meta_error (st : RepipeCommand) (w : World) (config : String) (e : RErr)
    (h : (extract_meta st w config).1 = .error e) :
    (∃ m, e = .ioError m) ∨ e = .metaExtractFailed ∨ e = .metaParseFailed
      ∨ e = .missingTarget ∨ e = .missingPipelineName := by
  unfold extract_meta at h
  repeat' split at h
  all_goals simp_all
  all_goals exact Or.inl ⟨_, h.symm⟩

theorem validate_target_effs (st : RepipeCommand) (w : World) :
    ∀ e ∈ (validate_target st w).2, ∃ p, e = Eff.readFileEff p := by
  unfold validate_target
  repeat' split
  all_goals simp

theorem validate_target_error (st : RepipeCommand) (w : World) (e : RErr)
    (h : (validate_target st w).1 = .error e) :
    e = .homeNotSet ∨ e = .flyrcReadFailed ∨ e = .flyrcParseFailed
      ∨ e = .targetUrlNotFound ∨ e = .targetUrlMismatch
      ∨ e = .targetTeamNotFound ∨ e = .targetTeamMismatch := by
  unfold validate_target checkTeam at h
  repeat' split at h
  all_goals simp_all

theorem dispatch_error (st : RepipeCommand) (w : World) (e : RErr)
    (h : (dispatch st w).1 = .error e) : ∃ m, e = .ioError m := by
  unfold dispatch at h
  repeat' split at h
  all_goals simp_all
  all_goals exact ⟨_, h.symm⟩

theorem dispatch_writes (st : RepipeCommand) (w : World) :
    writesOf (dispatch st w).2 = [] := by
  unfold dispatch
  repeat' split
  all_goals simp [writesOf]

theorem dispatch_reads (st : RepipeCommand) (w : World) :
    ∀ p, Eff.readFileEff p ∈ (dispatch st w).2 → p = ".deploy.yml" := by
  unfold dispatch
  repeat' split
  all_goals simp

theorem open_browser_step_effs (st : RepipeCommand) (w : World) :
    ∀ e ∈ open_browser_step st w,
      (∃ u, e = Eff.openBrowser u) ∨ ∃ s, e = Eff.printStdout s := by
  unfold open_browser_step
  repeat' split
  all_goals simp

theorem execute_err_check (st : RepipeCommand) (w : World) (e : RErr)
    (h : (check_requirements st w).1 = .error e) :
    execute st w = (.error e, (check_requirements st w).2) := by
  unfold execute
  rw [andThen_fst_error _ _ e h]

theorem execute_err_settings (st : RepipeCommand) (w : World)
    (hc : (check_requirements st w).1 = .ok ()) (e : RErr)
    (hs : find_settings_file st w = .error e) :
    execute st w = (.error e, (check_requirements st w).2) := by
  unfold execute
  rw [andThen_ok _ _ () hc, andThen_fst_error _ _ e hs]
  simp [noEff]

theorem execute_err_merge (st : RepipeCommand) (w : World)
    (hc : (check_requirements st w).1 = .ok ()) (sf : String)
    (hs : find_settings_file st w = .ok sf) (e : RErr)
    (hm : (merge_pipeline_config { st with settings_file := sf } w).1 = .error e) :
    execute st w =
      (.error e,
       (check_requirements st w).2
         ++ (merge_pipeline_config { st with settings_file := sf } w).2) := by
  unfold execute
  rw [andThen_ok _ _ () hc, andThen_ok _ _ sf hs, andThen_fst_error _ _ e hm]
  simp [noEff]

theorem execute_err_extract (st : RepipeCommand) (w : World)
    (hc : (check_requirements st w).1 = .ok ()) (sf : String)
    (hs : find_settings_file st w = .ok sf) (config : String)
    (hm : (merge_pipeline_config { st with settings_file := sf } w).1 = .ok config) (e : RErr)
    (hx : (extract_meta { st with settings_file := sf } w config).1 = .error e) :
    execute st w =
      (.error e,
       (check_requirements st w).2
         ++ (merge_pipeline_config { st with settings_file := sf } w).2
         ++ (extract_meta { st with settings_file := sf } w config).2) := by
  unfold execute
  rw [andThen_ok _ _ () hc, andThen_ok _ _ sf hs, andThen_ok _ _ config hm,
      andThen_fst_error _ _ e hx]
  simp [noEff]

theorem execute_err_validate (st : RepipeCommand) (w : World)
    (hc : (check_requirements st w).1 = .ok ()) (sf : String)
    (hs : find_settings_file st w = .ok sf) (config : String)
    (hm : (merge_pipeline_config { st with settings_file := sf } w).1 = .ok config)
    (st2 : RepipeCommand)
    (hx : (extract_meta { st with settings_file := sf } w config).1 = .ok st2) (e : RErr)
    (hv : (validate_target st2 w).1 = .error e) :
    execute st w =
      (.error e,
       (check_requirements st w).2
         ++ (merge_pipeline_config { st with settings_file := sf } w).2
         ++ (extract_meta { st with settings_file := sf } w config).2
         ++ (validate_target st2 w).2) := by
  unfold execute
  rw [andThen_ok _ _ () hc, andThen_ok _ _ sf hs, andThen_ok _ _ config hm,
      andThen_ok _ _ st2 hx, andThen_fst_error _ _ e hv]
  simp [noEff]

theorem execute_err_dispatch (st : RepipeCommand) (w : World)
    (hc : (check_requirements st w).1 = .ok ()) (sf : String)
    (hs : find_settings_file st w = .ok sf) (config : String)
    (hm : (merge_pipeline_config { st with settings_file := sf } w).1 = .ok config)
    (st2 : RepipeCommand)
    (hx : (extract_meta { st with settings_file := sf } w config).1 = .ok st2)
    (hv : (validate_target st2 w).1 = .ok ()) (e : RErr)
    (hd : (dispatch st2 w).1 = .error e) :
    execute st w =
      (.error e,
       (check_requirements st w).2
         ++ (merge_pipeline_config { st with settings_file := sf } w).2
         ++ (extract_meta { st with settings_file := sf } w config).2
         ++ (validate_target st2 w).2
         ++ (dispatch st2 w).2) := by
  unfold execute
  rw [andThen_ok _ _ () hc, andThen_ok _ _ sf hs, andThen_ok _ _ config hm,
      andThen_ok _ _ st2 hx, andThen_ok _ _ () hv, andThen_fst_error _ _ e hd]
  simp [noEff]

theorem execute_all_ok (st : RepipeCommand) (w : World)
    (hc : (check_requirements st w).1 = .ok ()) (sf : String)
    (hs : find_settings_file st w = .ok sf) (config : String)
    (hm : (merge_pipeline_config { st with settings_file := sf } w).1 = .ok config)
    (st2 : RepipeCommand)
    (hx : (extract_meta { st with settings_file := sf } w config).1 = .ok st2)
    (hv : (validate_target st2 w).1 = .ok ())
    (hd : (dispatch st2 w).1 = .ok ()) :
    execute st w =
      (.ok (),
       (check_requirements st w).2
         ++ (merge_pipeline_config { st with settings_file := sf } w).2
         ++ (extract_meta { st with settings_file := sf } w config).2
         ++ (validate_target st2 w).2
         ++ (dispatch st2 w).2
         ++ open_browser_step st2 w) := by
  unfold execute
  rw [andThen_ok _ _ () hc, andThen_ok _ _ sf hs, andThen_ok _ _ config hm,
      andThen_ok _ _ st2 hx, andThen_ok _ _ () hv, andThen_ok _ _ () hd]
  simp [noEff]

theorem writesOf_eq_nil (l : List Eff) (h : ∀ p c, Eff.writeFile p c ∉ l) :
    writesOf l = [] := by
  unfold writesOf
  rw [List.filterMap_eq_nil_iff]
  intro a ha
  cases a
  case writeFile p c => exact absurd ha (h p c)
  all_goals rfl

theorem check_requirements_no_orch (st : RepipeCommand) (w : World) :
    ∀ e ∈ (check_requirements st w).2, isOrchestratorCall e = false := by
  intro e he
  have h4 := check_requirements_effs st w e he
  simp at h4
  rcases h4 with rfl | rfl | rfl | rfl <;> decide

theorem check_requirements_no_chdir (st : RepipeCommand) (w : World) :
    ∀ e ∈ (check_requirements st w).2, isChdir e = false := by
  intro e he
  have h4 := check_requirements_effs st w e he
  simp at h4
  rcases h4 with rfl | rfl | rfl | rfl <;> decide

theorem check_requirements_writes (st : RepipeCommand) (w : World) :
    writesOf (check_requirements st w).2 = [] := by
  apply writesOf_eq_nil
  intro p c hmem
  have h4 := check_requirements_effs st w _ hmem
  simp at h4

theorem check_requirements_spawns_which (st : RepipeCommand) (w : World) :
    ∀ e ∈ (check_requirements st w).2, ∀ prog args, e = Eff.spawn prog args → prog = "which" := by
  intro e he prog args hpe
  have h4 := check_requirements_effs st w e he
  subst hpe
  simp at h4
  rcases h4 with ⟨h1, _⟩ | ⟨h1, _⟩ | ⟨h1, _⟩ | ⟨h1, _⟩ <;> exact h1

theorem merge_inner_no_chdir (st : RepipeCommand) (w : World) (td : String) :
    ∀ e ∈ (merge_inner st w td).2, isChdir e = false := by
  unfold merge_inner
  repeat' split
  all_goals simp only [runBuildScript_snd]
  all_goals repeat' split
  all_goals simp [isChdir]

theorem merge_pipeline_config_no_chdir (st : RepipeCommand) (w : World) :
    ∀ e ∈ (merge_pipeline_config st w).2, isChdir e = false := by
  intro e he
  unfold merge_pipeline_config at he
  split at he
  · simp at he
  · rcases List.mem_append.mp he with he | he
    · exact merge_inner_no_chdir st w _ e he
    · simp at he
      simp [he, isChdir]

theorem extract_meta_no_orch (st : RepipeCommand) (w : World) (config : String) :
    ∀ e ∈ (extract_meta st w config).2, isOrchestratorCall e = false := by
  intro e he
  rw [extract_meta_snd] at he
  simp at he
  simp [he, isOrchestratorCall]

theorem extract_meta_no_chdir (st : RepipeCommand) (w : World) (config : String) :
    ∀ e ∈ (extract_meta st w config).2, isChdir e = false := by
  intro e he
  rw [extract_meta_snd] at he
  simp at he
  simp [he, isChdir]

theorem extract_meta_writes (st : RepipeCommand) (w : World) (config : String) :
    writesOf (extract_meta st w config).2 = [] := by
  rw [extract_meta_snd]
  rfl

theorem validate_target_no_orch (st : RepipeCommand) (w : World) :
    ∀ e ∈ (validate_target st w).2, isOrchestratorCall e = false := by
  intro e he
  rcases validate_target_effs st w e he with ⟨p, rfl⟩
  rfl

theorem validate_target_no_chdir (st : RepipeCommand) (w : World) :
    ∀ e ∈ (validate_target st w).2, isChdir e = false := by
  intro e he
  rcases validate_target_effs st w e he with ⟨p, rfl⟩
  rfl

theorem validate_target_writes (st : RepipeCommand) (w : World) :
    writesOf (validate_target st w).2 = [] := by
  apply writesOf_eq_nil
  intro p c hmem
  rcases validate_target_effs st w _ hmem with ⟨q, hq⟩
  simp at hq

theorem dispatch_no_chdir (st : RepipeCommand) (w : World) :
    ∀ e ∈ (dispatch st w).2, isChdir e = false := by
  unfold dispatch
  repeat' split
  all_goals simp [isChdir]

theorem open_browser_step_no_orch (st : RepipeCommand) (w : World) :
    ∀ e ∈ open_browser_step st w, isOrchestratorCall e = false := by
  intro e he
  rcases open_browser_step_effs st w e he with ⟨u, rfl⟩ | ⟨s, rfl⟩ <;> rfl

theorem open_browser_step_no_chdir (st : RepipeCommand) (w : World) :
    ∀ e ∈ open_browser_step st w, isChdir e = false := by
  intro e he
  rcases open_browser_step_effs st w e he with ⟨u, rfl⟩ | ⟨s, rfl⟩ <;> rfl

theorem open_browser_step_writes (st : RepipeCommand) (w : World) :
    writesOf (open_browser_step st w) = [] := by
  apply writesOf_eq_nil
  intro p c hmem
  rcases open_browser_step_effs st w _ hmem with ⟨u, hu⟩ | ⟨s, hs⟩ <;> simp_all

theorem execute_trace_decomp (st : RepipeCommand) (w : World) :
    ∀ e ∈ (execute st w).2,
      e ∈ (check_requirements st w).2
      ∨ (∃ sf, e ∈ (merge_pipeline_config { st with settings_file := sf } w).2)
      ∨ (∃ sf config, e ∈ (extract_meta { st with settings_file := sf } w config).2)
      ∨ (∃ st2, e ∈ (validate_target st2 w).2)
      ∨ (∃ st2, e ∈ (dispatch st2 w).2)
      ∨ (∃ st2, e ∈ open_browser_step st2 w) := by
  intro e he
  cases hc : (check_requirements st w).1 with
  | error ec =>
    rw [execute_err_check st w ec hc] at he
    exact Or.inl he
  | ok u =>
    cases u
    cases hs : find_settings_file st w with
    | error es =>
      rw [execute_err_settings st w hc es hs] at he
      exact Or.inl he
    | ok sf =>
      cases hm : (merge_pipeline_config { st with settings_file := sf } w).1 with
      | error em =>
        rw [execute_err_merge st w hc sf hs em hm] at he
        rcases List.mem_append.mp he with he | he
        · exact Or.inl he
        · exact Or.inr (Or.inl ⟨sf, he⟩)
      | ok config =>
        cases hx : (extract_meta { st with settings_file := sf } w config).1 with
        | error ex =>
          rw [execute_err_extract st w hc sf hs config hm ex hx] at he
          rcases List.mem_append.mp he with he | he
          · rcases List.mem_append.mp he with he | he
            · exact Or.inl he
            · exact Or.inr (Or.inl ⟨sf, he⟩)
          · exact Or.inr (Or.inr (Or.inl ⟨sf, config, he⟩))
        | ok st2 =>
          cases hv : (validate_target st2 w).1 with
          | error ev =>
            rw [execute_err_validate st w hc sf hs config hm st2 hx ev hv] at he
            rcases List.mem_append.mp he with he | he
            · rcases List.mem_append.mp he with he | he
              · rcases List.mem_append.mp he with he | he
                · exact Or.inl he
                · exact Or.inr (Or.inl ⟨sf, he⟩)
              · exact Or.inr (Or.inr (Or.inl ⟨sf, config, he⟩))
            · exact Or.inr (Or.inr (Or.inr (Or.inl ⟨st2, he⟩)))
          | ok u2 =>
            cases u2
            cases hd : (dispatch st2 w).1 with
            | error ed =>
              rw [execute_err_dispatch st w hc sf hs config hm st2 hx hv ed hd] at he
              rcases List.mem_append.mp he with he | he
              · rcases List.mem_append.mp he with he | he
                · rcases List.mem_append.mp he with he | he
                  · rcases List.mem_append.mp he with he | he
                    · exact Or.inl he
                    · exact Or.inr (Or.inl ⟨sf, he⟩)
                  · exact Or.inr (Or.inr (Or.inl ⟨sf, config, he⟩))
                · exact Or.inr (Or.inr (Or.inr (Or.inl ⟨st2, he⟩)))
              · exact Or.inr (Or.inr (Or.inr (Or.inr (Or.inl ⟨st2, he⟩))))
            | ok u3 =>
              cases u3
              rw [execute_all_ok st w hc sf hs config hm st2 hx hv hd] at he
              rcases List.mem_append.mp he with he | he
              · rcases List.mem_append.mp he with he | he
                · rcases List.mem_append.mp he with he | he
                  · rcases List.mem_append.mp he with he | he
                    · rcases List.mem_append.mp he with he | he
                      · exact Or.inl he
                      · exact Or.inr (Or.inl ⟨sf, he⟩)
                    · exact Or.inr (Or.inr (Or.inl ⟨sf, config, he⟩))
                  · exact Or.inr (Or.inr (Or.inr (Or.inl ⟨st2, he⟩)))
                · exact Or.inr (Or.inr (Or.inr (Or.inr (Or.inl ⟨st2, he⟩))))
              · exact Or.inr (Or.inr (Or.inr (Or.inr (Or.inr ⟨st2, he⟩))))

theorem execute_no_chdir (st : RepipeCommand) (w : World) :
    ∀ e ∈ (execute st w).2, isChdir e = false := by
  intro e he
  rcases execute_trace_decomp st w e he with
    h | ⟨sf, h⟩ | ⟨sf, config, h⟩ | ⟨st2, h⟩ | ⟨st2, h⟩ | ⟨st2, h⟩
  · exact check_requirements_no_chdir st w e h
  · exact merge_pipeline_config_no_chdir _ w e h
  · exact extract_meta_no_chdir _ w config e h
  · exact validate_target_no_chdir st2 w e h
  · exact dispatch_no_chdir st2 w e h
  · exact open_browser_step_no_chdir st2 w e h

theorem execute_writes (st : RepipeCommand) (w : World) :
    ∀ p ∈ writesOf (execute st w).2,
      ∃ td, w.tempDirResult = some td ∧ p = td ++ "/.deploy.yml" := by
  intro p hp
  unfold writesOf at hp
  rcases List.mem_filterMap.mp hp with ⟨e, he, hpe⟩
  rcases execute_trace_decomp st w e he with
    h | ⟨sf, h⟩ | ⟨sf, config, h⟩ | ⟨st2, h⟩ | ⟨st2, h⟩ | ⟨st2, h⟩
  · have h4 := check_requirements_effs st w e h
    simp at h4
    rcases h4 with rfl | rfl | rfl | rfl <;> simp at hpe
  · have hpm : p ∈ writesOf (merge_pipeline_config { st with settings_file := sf } w).2 := by
      unfold writesOf
      exact List.mem_filterMap.mpr ⟨e, h, hpe⟩
    exact merge_pipeline_config_writes _ w p hpm
  · rw [extract_meta_snd] at h
    simp at h
    subst h
    simp at hpe
  · rcases validate_target_effs st2 w e h with ⟨q, rfl⟩
    simp at hpe
  · have hpm : p ∈ writesOf (dispatch st2 w).2 := by
      unfold writesOf
      exact List.mem_filterMap.mpr ⟨e, h, hpe⟩
    rw [dispatch_writes] at hpm
    exact absurd hpm (List.not_mem_nil p)
  · rcases open_browser_step_effs st2 w e h with ⟨u, rfl⟩ | ⟨s, rfl⟩ <;> simp at hpe

theorem execute_error_noOrch (st : RepipeCommand) (w : World) (err : RErr)
    (h : (execute st w).1 = .error err) (hio : ∀ m, err ≠ .ioError m) :
    ∀ e ∈ (execute st w).2, isOrchestratorCall e = false := by
  intro e he
  cases hc : (check_requirements st w).1 with
  | error ec =>
    rw [execute_err_check st w ec hc] at he
    exact check_requirements_no_orch st w e he
  | ok u =>
    cases u
    cases hs : find_settings_file st w with
    | error es =>
      rw [execute_err_settings st w hc es hs] at he
      exact check_requirements_no_orch st w e he
    | ok sf =>
      cases hm : (merge_pipeline_config { st with settings_file := sf } w).1 with
      | error em =>
        rw [execute_err_merge st w hc sf hs em hm] at he
        rcases List.mem_append.mp he with he | he
        · exact check_requirements_no_orch st w e he
        · exact merge_pipeline_config_no_orch _ w e he
      | ok config =>
        cases hx : (extract_meta { st with settings_file := sf } w config).1 with
        | error ex =>
          rw [execute_err_extract st w hc sf hs config hm ex hx] at he
          rcases List.mem_append.mp he with he | he
          · rcases List.mem_append.mp he with he | he
            · exact check_requirements_no_orch st w e he
            · exact merge_pipeline_config_no_orch _ w e he
          · exact extract_meta_no_orch _ w config e he
        | ok st2 =>
          cases hv : (validate_target st2 w).1 with
          | error ev =>
            rw [execute_err_validate st w hc sf hs config hm st2 hx ev hv] at he
            rcases List.mem_append.mp he with he | he
            · rcases List.mem_append.mp he with he | he
              · rcases List.mem_append.mp he with he | he
                · exact check_requirements_no_orch st w e he
                · exact merge_pipeline_config_no_orch _ w e he
              · exact extract_meta_no_orch _ w config e he
            · exact validate_target_no_orch st2 w e he
          | ok u2 =>
            cases u2
            cases hd : (dispatch st2 w).1 with
            | error ed =>
              rw [execute_err_dispatch st w hc sf hs config hm st2 hx hv ed hd] at h
              simp at h
              rcases dispatch_error st2 w ed hd with ⟨m, rfl⟩
              exact absurd h.symm (hio m)
            | ok u3 =>
              cases u3
              rw [execute_all_ok st w hc sf hs config hm st2 hx hv hd] at h
              simp at h

theorem execute_settings_error_trace (st : RepipeCommand) (w : World)
    (h : (execute st w).1 = .error .settingsNotFound) :
    (execute st w).2 = (check_requirements st w).2 := by
  cases hc : (check_requirements st w).1 with
  | error ec =>
    rw [execute_err_check st w ec hc]
  | ok u =>
    cases u
    cases hs : find_settings_file st w with
    | error es =>
      rw [execute_err_settings st w hc es hs]
    | ok sf =>
      cases hm : (merge_pipeline_config { st with settings_file := sf } w).1 with
      | error em =>
        rw [execute_err_merge st w hc sf hs em hm] at h
        simp at h
        rcases merge_pipeline_config_error _ w em hm with ⟨m, hem⟩ | hem <;> simp_all
      | ok config =>
        cases hx : (extract_meta { st with settings_file := sf } w config).1 with
        | error ex =>
          rw [execute_err_extract st w hc sf hs config hm ex hx] at h
          simp at h
          rcases extract_meta_error _ w config ex hx with ⟨m, hex⟩ | hex | hex | hex | hex <;>
            simp_all
        | ok st2 =>
          cases hv : (validate_target st2 w).1 with
          | error ev =>
            rw [execute_err_validate st w hc sf hs config hm st2 hx ev hv] at h
            simp at h
            rcases validate_target_error st2 w ev hv with
              hev | hev | hev | hev | hev | hev | hev <;> simp_all
          | ok u2 =>
            cases u2
            cases hd : (dispatch st2 w).1 with
            | error ed =>
              rw [execute_err_dispatch st w hc sf hs config hm st2 hx hv ed hd] at h
              simp at h
              rcases dispatch_error st2 w ed hd with ⟨m, hed⟩
              simp_all
            | ok u3 =>
              cases u3
              rw [execute_all_ok st w hc sf hs config hm st2 hx hv hd] at h
              simp at h

theorem execute_no_directoryNotFound (st : RepipeCommand) (w : World) (k : String) :
    (execute st w).1 ≠ .error (.directoryNotFound k) := by
  intro h
  cases hc : (check_requirements st w).1 with
  | error ec =>
    rw [execute_err_check st w ec hc] at h
    simp at h
    rcases check_requirements_error st w ec hc with ⟨m, hm⟩ | ⟨c, hm⟩ | hm <;> simp_all
  | ok u =>
    cases u
    cases hs : find_settings_file st w with
    | error es =>
      rw [execute_err_settings st w hc es hs] at h
      simp at h
      have := find_settings_file_error st w es hs
      simp_all
    | ok sf =>
      cases hm : (merge_pipeline_config { st with settings_file := sf } w).1 with
      | error em =>
        rw [execute_err_merge st w hc sf hs em hm] at h
        simp at h
        rcases merge_pipeline_config_error _ w em hm with ⟨m, hem⟩ | hem <;> simp_all
      | ok config =>
        cases hx : (extract_meta { st with settings_file := sf } w config).1 with
        | error ex =>
          rw [execute_err_extract st w hc sf hs config hm ex hx] at h
          simp at h
          rcases extract_meta_error _ w config ex hx with ⟨m, hex⟩ | hex | hex | hex | hex <;>
            simp_all
        | ok st2 =>
          cases hv : (validate_target st2 w).1 with
          | error ev =>
            rw [execute_err_validate st w hc sf hs config hm st2 hx ev hv] at h
            simp at h
            rcases validate_target_error st2 w ev hv with
              hev | hev | hev | hev | hev | hev | hev <;> simp_all
          | ok u2 =>
            cases u2
            cases hd : (dispatch st2 w).1 with
            | error ed =>
              rw [execute_err_dispatch st w hc sf hs config hm st2 hx hv ed hd] at h
              simp at h
              rcases dispatch_error st2 w ed hd with ⟨m, hed⟩
              simp_all
            | ok u3 =>
              cases u3
              rw [execute_all_ok st w hc sf hs config hm st2 hx hv hd] at h
              simp at h

/-- Claim C2: in every execution the merge step writes the merged document
only to a .deploy.yml path inside the freshly created temporary directory,
that directory is removed when the merge function returns, the dispatcher
only ever reads or passes the relative path .deploy.yml, and the path the
merge step wrote is never the path the dispatcher reads — in particular no
step ever writes a .deploy.yml file into the working directory. -/
theorem C2_deploy_artifact_never_where_read (st : RepipeCommand) (w : World) (td : String)
    (h : w.tempDirResult = some td) :
    (∀ p ∈ writesOf (execute st w).2, p = td ++ "/.deploy.yml")
    ∧ (∃ l, (merge_pipeline_config st w).2 = l ++ [Eff.removeDirAll td])
    ∧ td ++ "/.deploy.yml" ≠ ".deploy.yml"
    ∧ (∀ cwd, td ≠ cwd → td ++ "/.deploy.yml" ≠ cwd ++ "/.deploy.yml")
    ∧ (∀ p, Eff.readFileEff p ∈ (dispatch st w).2 → p = ".deploy.yml")
    ∧ (st.options.validate = 0 → st.options.dry_run > 0 →
        Eff.readFileEff ".deploy.yml" ∈ (dispatch st w).2) := by
  refine ⟨?_, ⟨(merge_inner st w td).2, ?_⟩, ?_, ?_, dispatch_reads st w, ?_⟩
  · intro p hp
    rcases execute_writes st w p hp with ⟨td2, htd2, hp2⟩
    rw [h] at htd2
    injection htd2 with htd2
    rw [htd2]
    exact hp2
  · simp [merge_pipeline_config, h]
  · intro heq
    have hlen := congrArg String.length heq
    rw [String.length_append] at hlen
    have h12 : ("/.deploy.yml" : String).length = 12 := rfl
    have h11 : (".deploy.yml" : String).length = 11 := rfl
    rw [h12, h11] at hlen
    omega
  · intro cwd hne heq
    apply hne
    apply String.ext
    have hd := congrArg String.data heq
    rw [String.data_append, String.data_append] at hd
    exact List.append_cancel_right hd
  · intro hv hd
    unfold dispatch
    simp only [hv, hd]
    norm_num
    split <;> simp

/-- Witness for C2 at a concrete world whose temporary directory is /tmp/t0. -/
theorem C2_deploy_artifact_never_where_read_witness :
    (({ envVar := fun _ => none, fileExists := fun _ => false, readFile := fun _ => none,
        tempDirResult := some "/tmp/t0", runOutput := fun _ _ => none,
        runPipedOutput := fun _ _ _ => none, runStatus := fun _ _ => none,
        parseMeta := fun _ => none, parseFlyrc := fun _ => none,
        flyPathMeta := fun _ => none, openResult := fun _ => none } : World).tempDirResult
        = some "/tmp/t0")
    ∧ ((∀ p ∈ writesOf (execute (RepipeCommand.new {} "/repo/ci")
          { envVar := fun _ => none, fileExists := fun _ => false, readFile := fun _ => none,
            tempDirResult := some "/tmp/t0", runOutput := fun _ _ => none,
            runPipedOutput := fun _ _ _ => none, runStatus := fun _ _ => none,
            parseMeta := fun _ => none, parseFlyrc := fun _ => none,
            flyPathMeta := fun _ => none, openResult := fun _ => none }).2,
          p = "/tmp/t0" ++ "/.deploy.yml")
       ∧ (∃ l, (merge_pipeline_config (RepipeCommand.new {} "/repo/ci")
          { envVar := fun _ => none, fileExists := fun _ => false, readFile := fun _ => none,
            tempDirResult := some "/tmp/t0", runOutput := fun _ _ => none,
            runPipedOutput := fun _ _ _ => none, runStatus := fun _ _ => none,
            parseMeta := fun _ => none, parseFlyrc := fun _ => none,
            flyPathMeta := fun _ => none, openResult := fun _ => none }).2
              = l ++ [Eff.removeDirAll "/tmp/t0"])
       ∧ "/tmp/t0" ++ "/.deploy.yml" ≠ ".deploy.yml"
       ∧ (∀ cwd, "/tmp/t0" ≠ cwd → "/tmp/t0" ++ "/.deploy.yml" ≠ cwd ++ "/.deploy.yml")
       ∧ (∀ p, Eff.readFileEff p ∈ (dispatch (RepipeCommand.new {} "/repo/ci")
          { envVar := fun _ => none, fileExists := fun _ => false, readFile := fun _ => none,
            tempDirResult := some "/tmp/t0", runOutput := fun _ _ => none,
            runPipedOutput := fun _ _ _ => none, runStatus := fun _ _ => none,
            parseMeta := fun _ => none, parseFlyrc := fun _ => none,
            flyPathMeta := fun _ => none, openResult := fun _ => none }).2 → p = ".deploy.yml")
       ∧ ((RepipeCommand.new {} "/repo/ci").options.validate = 0 →
          (RepipeCommand.new {} "/repo/ci").options.dry_run > 0 →
            Eff.readFileEff ".deploy.yml" ∈ (dispatch (RepipeCommand.new {} "/repo/ci")
          { envVar := fun _ => none, fileExists := fun _ => false, readFile := fun _ => none,
            tempDirResult := some "/tmp/t0", runOutput := fun _ _ => none,
            runPipedOutput := fun _ _ _ => none, runStatus := fun _ _ => none,
            parseMeta := fun _ => none, parseFlyrc := fun _ => none,
            flyPathMeta := fun _ => none, openResult := fun _ => none }).2)) :=
  ⟨rfl, C2_deploy_artifact_never_where_read (RepipeCommand.new {} "/repo/ci") _ "/tmp/t0" rfl⟩

/-- Claim C5: in apply mode (validate and dry-run both zero), when the three
fly spawns succeed, the dispatcher issues exactly one set-pipeline call,
then exactly one pause-pipeline or unpause-pipeline call chosen by the pause
flag, then exactly one expose-pipeline or hide-pipeline call whose direction
is the explicit expose option if set, else the metadata exposed flag, else
hidden. -/
theorem C5_apply_sequence (st : RepipeCommand) (w : World)
    (hv : st.options.validate = 0) (hd : st.options.dry_run = 0)
    (c1 c2 c3 : Int)
    (h1 : w.runStatus (flyCmd st) (setPipelineArgs st) = some c1)
    (h2 : w.runStatus (flyCmd st) (pauseArgs st) = some c2)
    (h3 : w.runStatus (flyCmd st) (exposeArgs st) = some c3) :
    dispatch st w =
      (.ok (),
       [Eff.spawn (flyCmd st) (setPipelineArgs st),
        Eff.spawn (flyCmd st)
          ["--target", st.target,
           (if st.options.pause then "pause" else "unpause") ++ "-pipeline",
           "--pipeline", st.pipeline],
        Eff.spawn (flyCmd st)
          ["--target", st.target,
           (if st.options.expose.getD ((st.meta.bind PipelineMeta.exposed).getD false)
            then "expose" else "hide") ++ "-pipeline",
           "--pipeline", st.pipeline]]) := by
  unfold dispatch
  simp only [hv, hd]
  norm_num
  rw [h1, h2, h3]
  simp [pauseArgs, exposeArgs, resolvedExpose]

/-- Concrete state for the scenario-D instance of C5: apply mode, pause flag
unset, expose option unset, extracted metadata with exposed true. -/
def stC5 : RepipeCommand :=
  { options := {}, base_dir := "/repo/ci", settings_file := "settings.yml",
    meta := some { exposed := some true }, target := "t", pipeline := "p" }

/-- Concrete world for the scenario-D instance of C5: every fly call exits
with status zero. -/
def wC5 : World :=
  { envVar := fun _ => none, fileExists := fun _ => false, readFile := fun _ => none,
    tempDirResult := none, runOutput := fun _ _ => none,
    runPipedOutput := fun _ _ _ => none, runStatus := fun _ _ => some 0,
    parseMeta := fun _ => none, parseFlyrc := fun _ => none,
    flyPathMeta := fun _ => none, openResult := fun _ => none }

/-- Witness for C5, scenario D: pause flag unset and metadata exposed true
issue unpause-pipeline and then expose-pipeline. -/
theorem C5_apply_sequence_witness :
    (stC5.options.validate = 0 ∧ stC5.options.dry_run = 0
      ∧ wC5.runStatus (flyCmd stC5) (setPipelineArgs stC5) = some 0
      ∧ wC5.runStatus (flyCmd stC5) (pauseArgs stC5) = some 0
      ∧ wC5.runStatus (flyCmd stC5) (exposeArgs stC5) = some 0)
    ∧ dispatch stC5 wC5 =
        (.ok (),
         [Eff.spawn "fly"
            ["--target", "t", "set-pipeline", "--pipeline", "p", "--config", ".deploy.yml"],
          Eff.spawn "fly" ["--target", "t", "unpause-pipeline", "--pipeline", "p"],
          Eff.spawn "fly" ["--target", "t", "expose-pipeline", "--pipeline", "p"]]) :=
  ⟨⟨rfl, rfl, rfl, rfl, rfl⟩,
   C5_apply_sequence stC5 wC5 rfl rfl 0 0 0 rfl rfl rfl⟩

/-- Claim C7: the settings resolver prefers the target-specific file, whose
name replaces slash and space in the CONCOURSE_TARGET value and carries the
settings- prefix, whenever that file exists; otherwise it selects
settings.yml; when neither file exists the command fails with the
settings-not-found error before any merge attempt (no spruce process is
spawned). -/
theorem C7_settings_resolution (st : RepipeCommand) (w : World)
    (h0 : st.settings_file = "settings.yml") :
    (∀ t, w.envVar "CONCOURSE_TARGET" = some t → w.fileExists (settingsTargetFile t) = true →
       find_settings_file st w = .ok (settingsTargetFile t))
    ∧ (∀ t, w.envVar "CONCOURSE_TARGET" = some t → w.fileExists (settingsTargetFile t) = false →
         w.fileExists "settings.yml" = true → find_settings_file st w = .ok "settings.yml")
    ∧ (w.envVar "CONCOURSE_TARGET" = none → w.fileExists "settings.yml" = true →
         find_settings_file st w = .ok "settings.yml")
    ∧ ((∀ t, w.envVar "CONCOURSE_TARGET" = some t → w.fileExists (settingsTargetFile t) = false) →
         w.fileExists "settings.yml" = false →
         find_settings_file st w = .error .settingsNotFound)
    ∧ ((execute st w).1 = .error .settingsNotFound →
         ∀ e ∈ (execute st w).2, ∀ args, e ≠ Eff.spawn "spruce" args) := by
  refine ⟨?_, ?_, ?_, ?_, ?_⟩
  · intro t ht hf
    simp [find_settings_file, ht, hf]
  · intro t ht hf hd
    simp [find_settings_file, ht, hf, h0, hd]
  · intro ht hd
    simp [find_settings_file, ht, h0, hd]
  · intro hall hd
    cases ht : w.envVar "CONCOURSE_TARGET" with
    | none => simp [find_settings_file, ht, h0, hd]
    | some t => simp [find_settings_file, ht, hall t ht, h0, hd]
  · intro herr e he args heq
    rw [execute_settings_error_trace st w herr] at he
    have := check_requirements_spawns_which st w e he "spruce" args heq
    simp at this

/-- Concrete world for the C7 witness: CONCOURSE_TARGET is prod/a b and both
the target-specific file and settings.yml exist. -/
def wC7 : World :=
  { envVar := fun v => if v = "CONCOURSE_TARGET" then some "prod/a b" else none,
    fileExists := fun p => p == "settings-prod-a_b.yml" || p == "settings.yml",
    readFile := fun _ => none, tempDirResult := none, runOutput := fun _ _ => none,
    runPipedOutput := fun _ _ _ => none, runStatus := fun _ _ => none,
    parseMeta := fun _ => none, parseFlyrc := fun _ => none,
    flyPathMeta := fun _ => none, openResult := fun _ => none }

/-- Witness for C7: with both files present the target-specific file
settings-prod-a_b.yml is selected over settings.yml. -/
theorem C7_settings_resolution_witness :
    ((RepipeCommand.new {} "/repo/ci").settings_file = "settings.yml"
      ∧ wC7.envVar "CONCOURSE_TARGET" = some "prod/a b"
      ∧ wC7.fileExists (settingsTargetFile "prod/a b") = true
      ∧ settingsTargetFile "prod/a b" = "settings-prod-a_b.yml")
    ∧ find_settings_file (RepipeCommand.new {} "/repo/ci") wC7
        = .ok (settingsTargetFile "prod/a b") :=
  ⟨⟨rfl, rfl, by decide, by decide⟩,
   (C7_settings_resolution (RepipeCommand.new {} "/repo/ci") wC7 rfl).1
     "prod/a b" rfl (by decide)⟩

theorem checkTeam_cases (m : PipelineMeta) (flyrc : Flyrc) (target : String) :
    checkTeam m flyrc target = .ok ()
    ∨ checkTeam m flyrc target = .error .targetTeamNotFound
    ∨ checkTeam m flyrc target = .error .targetTeamMismatch := by
  unfold checkTeam
  repeat' split
  all_goals simp

/-- Claim C8: during target validation a declared metadata URL must equal
the credentials entry API URL and a declared metadata team must equal the
credentials entry team; each mismatch fails the command before any remote
call, and a check whose metadata field is absent is skipped silently and
cannot fail. -/
theorem C8_url_team_checks (st : RepipeCommand) (w : World) (m : PipelineMeta)
    (flyrc : Flyrc) (home s : String)
    (hm : st.meta = some m)
    (hh : w.envVar "HOME" = some home)
    (hr : w.readFile (home ++ "/.flyrc") = some s)
    (hp : w.parseFlyrc s = some flyrc) :
    (∀ u a, m.url = some u → (lookupTarget flyrc st.target).bind FlyTarget.api = some a →
       u ≠ a → (validate_target st w).1 = .error .targetUrlMismatch)
    ∧ (m.url = none →
        (validate_target st w).1 ≠ .error .targetUrlMismatch
        ∧ (validate_target st w).1 ≠ .error .targetUrlNotFound)
    ∧ (∀ tm ta, m.team = some tm →
        (lookupTarget flyrc st.target).bind FlyTarget.team = some ta → tm ≠ ta →
        (m.url = none ∨ ∃ u, m.url = some u ∧
          (lookupTarget flyrc st.target).bind FlyTarget.api = some u) →
        (validate_target st w).1 = .error .targetTeamMismatch)
    ∧ (m.team = none →
        (validate_target st w).1 ≠ .error .targetTeamMismatch
        ∧ (validate_target st w).1 ≠ .error .targetTeamNotFound)
    ∧ (∀ st' w' er, (execute st' w').1 = .error er →
        (er = .targetUrlMismatch ∨ er = .targetTeamMismatch) →
        ∀ e ∈ (execute st' w').2, isOrchestratorCall e = false) := by
  refine ⟨?_, ?_, ?_, ?_, ?_⟩
  · intro u a hu ha hne
    simp [validate_target, hh, hr, hp, hm, hu, ha, hne]
  · intro hu
    have hres : (validate_target st w).1 = checkTeam m flyrc st.target := by
      simp [validate_target, hh, hr, hp, hm, hu]
    rcases checkTeam_cases m flyrc st.target with h | h | h <;> rw [hres, h] <;> simp
  · intro tm ta ht hta hne hurl
    have hres : (validate_target st w).1 = checkTeam m flyrc st.target := by
      rcases hurl with hu | ⟨u, hu, ha⟩
      · simp [validate_target, hh, hr, hp, hm, hu]
      · simp [validate_target, hh, hr, hp, hm, hu, ha]
    rw [hres]
    simp [checkTeam, ht, hta, hne]
  · intro ht
    have hok : checkTeam m flyrc st.target = .ok () := by
      simp [checkTeam, ht]
    cases hu : m.url with
    | none =>
      have hres : (validate_target st w).1 = checkTeam m flyrc st.target := by
        simp [validate_target, hh, hr, hp, hm, hu]
      rw [hres, hok]
      simp
    | some u =>
      cases ha : (lookupTarget flyrc st.target).bind FlyTarget.api with
      | none =>
        have hres : (validate_target st w).1 = .error .targetUrlNotFound := by
          simp [validate_target, hh, hr, hp, hm, hu, ha]
        rw [hres]
        simp
      | some a =>
        by_cases hne : u = a
        · have hres : (validate_target st w).1 = checkTeam m flyrc st.target := by
            simp [validate_target, hh, hr, hp, hm, hu, ha, hne]
          rw [hres, hok]
          simp
        · have hres : (validate_target st w).1 = .error .targetUrlMismatch := by
            simp [validate_target, hh, hr, hp, hm, hu, ha, hne]
          rw [hres]
          simp
  · intro st' w' er herr hsel e he
    rcases hsel with rfl | rfl
    · exact execute_error_noOrch st' w' _ herr (fun m h => RErr.noConfusion h) e he
    · exact execute_error_noOrch st' w' _ herr (fun m h => RErr.noConfusion h) e he

/-- Metadata for the scenario-B instance of C8: it declares a URL. -/
def metaC8 : PipelineMeta := { url := some "https://ci.example.com" }

/-- Credentials table for the scenario-B instance of C8: target t carries a
different API URL. -/
def flyrcC8 : Flyrc :=
  { targets := [("t", { api := some "https://other.example.com", team := some "main" })] }

/-- Concrete state for the scenario-B instance of C8: metadata declares a
URL different from the credentials entry. -/
def stC8 : RepipeCommand :=
  { options := {}, base_dir := "/repo/ci", settings_file := "settings.yml",
    meta := some metaC8, target := "t", pipeline := "p" }

/-- Concrete world for the scenario-B instance of C8: the credentials file
maps target t to a different API URL. -/
def wC8 : World :=
  { envVar := fun v => if v = "HOME" then some "/home/u" else none,
    fileExists := fun _ => false,
    readFile := fun p => if p = "/home/u/.flyrc" then some "flyrc-contents" else none,
    tempDirResult := none, runOutput := fun _ _ => none,
    runPipedOutput := fun _ _ _ => none, runStatus := fun _ _ => none,
    parseMeta := fun _ => none,
    parseFlyrc := fun _ => some flyrcC8,
    flyPathMeta := fun _ => none, openResult := fun _ => none }

/-- Witness for C8, scenario B: the URL mismatch makes target validation
fail with the URL-mismatch error. -/
theorem C8_url_team_checks_witness :
    (stC8.meta = some metaC8
      ∧ wC8.envVar "HOME" = some "/home/u"
      ∧ wC8.readFile ("/home/u" ++ "/.flyrc") = some "flyrc-contents"
      ∧ wC8.parseFlyrc "flyrc-contents" = some flyrcC8
      ∧ metaC8.url = some "https://ci.example.com"
      ∧ (lookupTarget flyrcC8 stC8.target).bind FlyTarget.api
          = some "https://other.example.com"
      ∧ "https://ci.example.com" ≠ "https://other.example.com")
    ∧ (validate_target stC8 wC8).1 = .error .targetUrlMismatch :=
  ⟨⟨rfl, rfl, by decide, rfl, rfl, by decide, by decide⟩,
   (C8_url_team_checks stC8 wC8 metaC8 flyrcC8
      "/home/u" "flyrc-contents" rfl rfl (by decide) rfl).1
     "https://ci.example.com" "https://other.example.com" rfl (by decide) (by decide)⟩

/-- Metadata with an empty target string and an empty pipeline string, as
serde happily produces for target: "" and pipeline: "". -/
def metaC3 : PipelineMeta := { target := some "", pipeline := some "" }

/-- Concrete world for the C3 counterexample. -/
def wC3 : World :=
  { envVar := fun _ => none, fileExists := fun _ => false, readFile := fun _ => none,
    tempDirResult := none, runOutput := fun _ _ => none,
    runPipedOutput := fun _ _ _ => some (true, "meta-json"),
    runStatus := fun _ _ => none,
    parseMeta := fun _ => some metaC3, parseFlyrc := fun _ => none,
    flyPathMeta := fun _ => none, openResult := fun _ => none }

/-- Counterexample to C3: metadata extraction succeeds although the resolved
target and pipeline name are both the empty string — the code never checks
the resolved strings for non-emptiness. -/
theorem C3_empty_strings_counterexample :
    (extract_meta (RepipeCommand.new {} "/repo/ci") wC3 "cfg").1
      = .ok { options := {}, base_dir := "/repo/ci", settings_file := "settings.yml",
              meta := some metaC3, target := "", pipeline := "" } := by
  rfl

/-- Claim C3 (amended): when metadata extraction succeeds the resolved
target equals metadata.target when present and otherwise the
CONCOURSE_TARGET value, and the resolved pipeline name equals
metadata.pipeline when present and otherwise metadata.name; extraction
fails, aborting the command before any remote call, whenever both sources
of either value are absent — but the resolved strings are not guaranteed to
be non-empty (an empty string in the metadata is accepted as resolved). -/
theorem C3_resolution_amended (st : RepipeCommand) (w : World) (config out : String)
    (m : PipelineMeta)
    (hrun : w.runPipedOutput "spruce" cherryArgs config = some (true, out))
    (hparse : w.parseMeta out = some m) :
    (m.target = none → w.envVar "CONCOURSE_TARGET" = none →
       (extract_meta st w config).1 = .error .missingTarget)
    ∧ (∀ t, m.target.orElse (fun _ => w.envVar "CONCOURSE_TARGET") = some t →
        (m.pipeline = none → m.name = none →
          (extract_meta st w config).1 = .error .missingPipelineName)
        ∧ (∀ p, m.pipeline.orElse (fun _ => m.name) = some p →
            (extract_meta st w config).1
              = .ok { st with meta := some m, target := t, pipeline := p }))
    ∧ (∀ st' w' er, (execute st' w').1 = .error er →
        (er = .missingTarget ∨ er = .missingPipelineName) →
        ∀ e ∈ (execute st' w').2, isOrchestratorCall e = false) := by
  have hstep : extract_meta st w config
      = (match m.target.orElse (fun _ => w.envVar "CONCOURSE_TARGET") with
         | none =>
             (Except.error RErr.missingTarget, [Eff.spawnPiped "spruce" cherryArgs config])
         | some t =>
           match m.pipeline.orElse (fun _ => m.name) with
           | none =>
               (Except.error RErr.missingPipelineName,
                [Eff.spawnPiped "spruce" cherryArgs config])
           | some p =>
             (Except.ok { st with meta := some m, target := t, pipeline := p },
              [Eff.spawnPiped "spruce" cherryArgs config])) := by
    unfold extract_meta
    rw [hrun]
    simp [hparse]
  refine ⟨?_, ?_, ?_⟩
  · intro h1 h2
    rw [hstep]
    simp [h1, h2, Option.orElse]
  · intro t ht
    constructor
    · intro h1 h2
      rw [hstep, ht]
      simp [h1, h2, Option.orElse]
    · intro p hp
      rw [hstep, ht, hp]
  · intro st' w' er herr hsel e he
    rcases hsel with rfl | rfl
    · exact execute_error_noOrch st' w' _ herr (fun m h => RErr.noConfusion h) e he
    · exact execute_error_noOrch st' w' _ herr (fun m h => RErr.noConfusion h) e he

/-- Metadata for the C3 witness: a target and, with pipeline absent, an
alternate name. -/
def metaC3w : PipelineMeta := { target := some "T", name := some "N" }

/-- Concrete world for the C3 witness. -/
def wC3w : World :=
  { envVar := fun _ => none, fileExists := fun _ => false, readFile := fun _ => none,
    tempDirResult := none, runOutput := fun _ _ => none,
    runPipedOutput := fun _ _ _ => some (true, "meta-json"),
    runStatus := fun _ _ => none,
    parseMeta := fun _ => some metaC3w, parseFlyrc := fun _ => none,
    flyPathMeta := fun _ => none, openResult := fun _ => none }

/-- Witness for the amended C3: target comes from metadata.target and the
pipeline name falls back from the absent metadata.pipeline to metadata.name. -/
theorem C3_resolution_amended_witness :
    (wC3w.runPipedOutput "spruce" cherryArgs "cfg" = some (true, "meta-json")
      ∧ wC3w.parseMeta "meta-json" = some metaC3w
      ∧ metaC3w.target.orElse (fun _ => wC3w.envVar "CONCOURSE_TARGET") = some "T"
      ∧ metaC3w.pipeline.orElse (fun _ => metaC3w.name) = some "N")
    ∧ (extract_meta (RepipeCommand.new {} "/repo/ci") wC3w "cfg").1
        = .ok { options := {}, base_dir := "/repo/ci", settings_file := "settings.yml",
                meta := some metaC3w, target := "T", pipeline := "N" } :=
  ⟨⟨rfl, rfl, rfl, rfl⟩,
   ((C3_resolution_amended (RepipeCommand.new {} "/repo/ci") wC3w "cfg" "meta-json"
       metaC3w rfl rfl).2.1 "T" rfl).2 "N" rfl⟩

/-- Metadata for the C9 counterexample: a target that has no credentials
entry, with no url and no team declared. -/
def metaC9 : PipelineMeta := { target := some "ghost", pipeline := some "p" }

/-- Credentials table for the C9 counterexample: empty, so no target has an
entry. -/
def flyrcC9 : Flyrc := { targets := [] }

/-- Concrete world for the C9 counterexample: every step succeeds and every
fly call exits zero. -/
def wC9 : World :=
  { envVar := fun v => if v == "HOME" then some "/home/u" else none,
    fileExists := fun p => p == "settings.yml",
    readFile := fun p => if p == "/home/u/.flyrc" then some "flyrc-contents" else none,
    tempDirResult := some "/tmp/t9",
    runOutput := fun p _ =>
      if p == "which" then some (true, "/usr/bin/x")
      else if p == "spruce" then some (true, "merged") else none,
    runPipedOutput := fun _ _ _ => some (true, "meta-json"),
    runStatus := fun _ _ => some 0,
    parseMeta := fun _ => some metaC9, parseFlyrc := fun _ => some flyrcC9,
    flyPathMeta := fun _ => none, openResult := fun _ => none }

/-- Counterexample to C9: the resolved target ghost has no entry under the
credentials targets key, yet the command succeeds and issues all three
remote calls — no unknown-target check exists when metadata declares
neither url nor team. -/
theorem C9_unknown_target_counterexample :
    lookupTarget flyrcC9 "ghost" = none
    ∧ (execute (RepipeCommand.new {} "/repo/ci") wC9).1 = .ok ()
    ∧ Eff.spawn "fly"
        ["--target", "ghost", "set-pipeline", "--pipeline", "p", "--config", ".deploy.yml"]
        ∈ (execute (RepipeCommand.new {} "/repo/ci") wC9).2 := by
  refine ⟨rfl, rfl, ?_⟩
  decide

/-- Claim C9 (amended): when the resolved target has no entry under the
credentials targets key, the command fails before any remote call provided
the metadata declares a url (URL lookup fails) or, with no url, a team
(team lookup fails); when the metadata declares neither url nor team, no
lookup of the target is made at all and validation succeeds even for an
unknown target. -/
theorem C9_unknown_target_amended (st : RepipeCommand) (w : World) (m : PipelineMeta)
    (flyrc : Flyrc) (home s : String)
    (hm : st.meta = some m)
    (hh : w.envVar "HOME" = some home)
    (hr : w.readFile (home ++ "/.flyrc") = some s)
    (hp : w.parseFlyrc s = some flyrc)
    (habs : lookupTarget flyrc st.target = none) :
    (∀ u, m.url = some u → (validate_target st w).1 = .error .targetUrlNotFound)
    ∧ (m.url = none → ∀ tm, m.team = some tm →
        (validate_target st w).1 = .error .targetTeamNotFound)
    ∧ (m.url = none → m.team = none → (validate_target st w).1 = .ok ())
    ∧ (∀ st' w' er, (execute st' w').1 = .error er →
        (er = .targetUrlNotFound ∨ er = .targetTeamNotFound) →
        ∀ e ∈ (execute st' w').2, isOrchestratorCall e = false) := by
  refine ⟨?_, ?_, ?_, ?_⟩
  · intro u hu
    simp [validate_target, hh, hr, hp, hm, hu, habs]
  · intro hu tm ht
    simp [validate_target, hh, hr, hp, hm, hu, checkTeam, ht, habs]
  · intro hu ht
    simp [validate_target, hh, hr, hp, hm, hu, checkTeam, ht]
  · intro st' w' er herr hsel e he
    rcases hsel with rfl | rfl
    · exact execute_error_noOrch st' w' _ herr (fun m h => RErr.noConfusion h) e he
    · exact execute_error_noOrch st' w' _ herr (fun m h => RErr.noConfusion h) e he

/-- Metadata for the C9 witness: an unknown target together with a declared
url. -/
def metaC9w : PipelineMeta :=
  { target := some "ghost", url := some "https://ci.example.com", pipeline := some "p" }

/-- Concrete state for the C9 witness. -/
def stC9w : RepipeCommand :=
  { options := {}, base_dir := "/repo/ci", settings_file := "settings.yml",
    meta := some metaC9w, target := "ghost", pipeline := "p" }

/-- Concrete world for the C9 witness. -/
def wC9w : World :=
  { envVar := fun v => if v == "HOME" then some "/home/u" else none,
    fileExists := fun _ => false,
    readFile := fun p => if p == "/home/u/.flyrc" then some "flyrc-contents" else none,
    tempDirResult := none, runOutput := fun _ _ => none,
    runPipedOutput := fun _ _ _ => none, runStatus := fun _ _ => none,
    parseMeta := fun _ => none, parseFlyrc := fun _ => some flyrcC9,
    flyPathMeta := fun _ => none, openResult := fun _ => none }

/-- Witness for the amended C9: an unknown target with a declared url fails
the URL lookup. -/
theorem C9_unknown_target_amended_witness :
    (stC9w.meta = some metaC9w
      ∧ wC9w.envVar "HOME" = some "/home/u"
      ∧ wC9w.readFile ("/home/u" ++ "/.flyrc") = some "flyrc-contents"
      ∧ wC9w.parseFlyrc "flyrc-contents" = some flyrcC9
      ∧ lookupTarget flyrcC9 stC9w.target = none
      ∧ metaC9w.url = some "https://ci.example.com")
    ∧ (validate_target stC9w wC9w).1 = .error .targetUrlNotFound :=
  ⟨⟨rfl, rfl, by decide, rfl, rfl, rfl⟩,
   (C9_unknown_target_amended stC9w wC9w metaC9w flyrcC9 "/home/u" "flyrc-contents"
      rfl rfl (by decide) rfl rfl).1 "https://ci.example.com" rfl⟩

/-- Concrete world for the C10 counterexample: no directory named ci exists
anywhere, no settings file exists, and the requirements check succeeds. -/
def wC10 : World :=
  { envVar := fun _ => none,
    fileExists := fun _ => false,
    readFile := fun _ => none, tempDirResult := none,
    runOutput := fun p _ => if p == "which" then some (true, "/usr/bin/x") else none,
    runPipedOutput := fun _ _ _ => none, runStatus := fun _ _ => none,
    parseMeta := fun _ => none, parseFlyrc := fun _ => none,
    flyPathMeta := fun _ => none, openResult := fun _ => none }

/-- Counterexample to C10: with a working directory not named ci and no ci
candidate anywhere, the repipe command does not fail with a
directory-not-found error and never changes the working directory — it
records the working directory unchanged and proceeds to settings discovery,
failing there; the separate find_ci_directory helper does fail, but the
repipe command never calls it. -/
theorem C10_no_ci_resolution_counterexample :
    (RepipeCommand.new {} "/work/foo").base_dir = "/work/foo"
    ∧ (execute (RepipeCommand.new {} "/work/foo") wC10).1 = .error .settingsNotFound
    ∧ ((execute (RepipeCommand.new {} "/work/foo") wC10).2.all fun e => !isChdir e) = true
    ∧ find_ci_directory "mykit" "/work/foo" (some "/work") wC10.fileExists
        = .error (.directoryNotFound "mykit") := by
  refine ⟨rfl, rfl, ?_, rfl⟩
  decide

/-- Claim C10 (amended): the repipe command performs no CI-root resolution
at all — RepipeCommand::new records the working directory unchanged as
base_dir, the command never changes the process working directory and never
fails with a directory-not-found error; the separate find_ci_directory
helper (used only by the CI status view) returns the first existing of
cwd/kit/ci, cwd/ci and parent-of-cwd/ci and fails only when none exists,
without changing the working directory. -/
theorem C10_no_directory_resolution_amended (opts : RepipeOptions) (cwd : String)
    (w : World) :
    (RepipeCommand.new opts cwd).base_dir = cwd
    ∧ (∀ e ∈ (execute (RepipeCommand.new opts cwd) w).2, isChdir e = false)
    ∧ (∀ k, (execute (RepipeCommand.new opts cwd) w).1 ≠ .error (.directoryNotFound k))
    ∧ (∀ kit cwd2 par fe,
        (fe (cwd2 ++ "/" ++ kit ++ "/ci") = true →
           find_ci_directory kit cwd2 par fe = .ok (cwd2 ++ "/" ++ kit ++ "/ci"))
        ∧ (fe (cwd2 ++ "/" ++ kit ++ "/ci") = false → fe (cwd2 ++ "/ci") = true →
           find_ci_directory kit cwd2 par fe = .ok (cwd2 ++ "/ci"))
        ∧ (fe (cwd2 ++ "/" ++ kit ++ "/ci") = false → fe (cwd2 ++ "/ci") = false →
            fe (parentCiCandidate par) = true →
            find_ci_directory kit cwd2 par fe = .ok (parentCiCandidate par))
        ∧ (fe (cwd2 ++ "/" ++ kit ++ "/ci") = false → fe (cwd2 ++ "/ci") = false →
            fe (parentCiCandidate par) = false →
            find_ci_directory kit cwd2 par fe = .error (.directoryNotFound kit))) := by
  refine ⟨rfl, execute_no_chdir _ w, fun k => execute_no_directoryNotFound _ w k, ?_⟩
  intro kit cwd2 par fe
  refine ⟨?_, ?_, ?_, ?_⟩
  · intro h1
    simp [find_ci_directory, List.find?, h1]
  · intro h1 h2
    simp [find_ci_directory, List.find?, h1, h2]
  · intro h1 h2 h3
    simp [find_ci_directory, List.find?, h1, h2, h3]
  · intro h1 h2 h3
    simp [find_ci_directory, List.find?, h1, h2, h3]

/-- Witness for the amended C10 at concrete inputs: base_dir is the working
directory unchanged, and the helper returns the first candidate when it
exists. -/
theorem C10_no_directory_resolution_amended_witness :
    (RepipeCommand.new {} "/work/foo").base_dir = "/work/foo"
    ∧ ((fun p : String => p == "/x/mykit/ci") ("/x" ++ "/" ++ "mykit" ++ "/ci") = true)
    ∧ find_ci_directory "mykit" "/x" (some "/w") (fun p => p == "/x/mykit/ci")
        = .ok ("/x" ++ "/" ++ "mykit" ++ "/ci") :=
  ⟨(C10_no_directory_resolution_amended {} "/work/foo" wC10).1, by decide,
   ((C10_no_directory_resolution_amended {} "/work/foo" wC10).2.2.2
      "mykit" "/x" (some "/w") (fun p => p == "/x/mykit/ci")).1 (by decide)⟩

/-- Splits a character list at every occurrence of the separator. -/
def splitOnChar (c : Char) : List Char → List (List Char)
  | [] => [[]]
  | ch :: rest =>
    match splitOnChar c rest with
    | [] => if ch = c then [[], []] else [[ch]]
    | g :: gs => if ch = c then [] :: g :: gs else (ch :: g) :: gs

/-- The discovery rule stated by the specification for the Config Merger:
every .yml file found under pipeline/ other than pipeline/base.yml, with
files inside directories named custom or optional excluded from the walk.
This definition follows the words of the specification, to be compared with
the argument list the code actually builds. -/
def specDiscoverYml (files : List String) : List String :=
  files.filter fun p =>
    (p.data.take 9 == "pipeline/".data)
      && (p.data.reverse.take 4 == ".yml".data.reverse)
      && !(p == "pipeline/base.yml")
      && !((splitOnChar '/' p.data).contains "custom".data)
      && !((splitOnChar '/' p.data).contains "optional".data)

/-- The merge-tool argument list stated by the specification: the base file
first, every discovered file, and the settings file last, under the
append-arrays policy. -/
def specMergeArgs (files : List String) (settings : String) : List String :=
  ["merge", "--fallback-append", "pipeline/base.yml"]
    ++ specDiscoverYml files ++ [settings]

/-- The filesystem of the C6 counterexample: the base file plus one more
.yml file under pipeline/. -/
def filesC6 : List String := ["pipeline/base.yml", "pipeline/jobs/extra.yml"]

/-- Concrete state for the C6 counterexample. -/
def stC6 : RepipeCommand :=
  { options := {}, base_dir := "/repo/ci", settings_file := "settings.yml",
    meta := none, target := "", pipeline := "" }

/-- Concrete world for the C6 counterexample. -/
def wC6 : World :=
  { envVar := fun _ => none,
    fileExists := fun p => filesC6.contains p,
    readFile := fun _ => none, tempDirResult := some "/tmp/t6",
    runOutput := fun p _ => if p == "spruce" then some (true, "merged") else none,
    runPipedOutput := fun _ _ _ => none, runStatus := fun _ _ => some 0,
    parseMeta := fun _ => none, parseFlyrc := fun _ => none,
    flyPathMeta := fun _ => none, openResult := fun _ => none }

/-- Counterexample to C6: the Config Merger does not pass the files
discovered under pipeline/ as positional arguments — it passes one literal,
unexpanded glob pattern built from base_dir, so the argument list differs
from the one the claim describes and the discovered file never appears in
it. -/
theorem C6_literal_glob_counterexample :
    wC6.fileExists "pipeline/jobs/extra.yml" = true
    ∧ Eff.spawn "spruce" (spruceMergeArgs stC6) ∈ (merge_pipeline_config stC6 wC6).2
    ∧ spruceMergeArgs stC6
        = ["merge", "--fallback-append", "pipeline/base.yml",
           "/repo/ci/pipeline/*/*.yml", "settings.yml"]
    ∧ specMergeArgs filesC6 "settings.yml"
        = ["merge", "--fallback-append", "pipeline/base.yml",
           "pipeline/jobs/extra.yml", "settings.yml"]
    ∧ spruceMergeArgs stC6 ≠ specMergeArgs filesC6 "settings.yml"
    ∧ ¬ "pipeline/jobs/extra.yml" ∈ spruceMergeArgs stC6 := by
  refine ⟨rfl, ?_, rfl, by decide, by decide, by decide⟩
  decide

theorem merge_inner_ok (st : RepipeCommand) (w : World) (td config : String)
    (h : (merge_inner st w td).1 = .ok config) :
    (merge_inner st w td).2
      = (runBuildScript w "scripts/build-test-jobs").2
        ++ (runBuildScript w "scripts/build-upstream-jobs").2
        ++ [.spawn "spruce" (spruceMergeArgs st),
            .writeFile (td ++ "/.deploy.yml") config]
    ∧ w.runOutput "spruce" (spruceMergeArgs st) = some (true, config) := by
  unfold merge_inner at h ⊢
  repeat' split at h
  all_goals simp_all

/-- Claim C6 (amended): the Config Merger invokes spruce merge exactly once
with the append policy, passing exactly three positional file arguments —
pipeline/base.yml first, then the single literal pattern
base_dir/pipeline/*/*.yml (never expanded by the program, with no recursive
discovery and no exclusion of custom or optional directories), and the
resolved settings file last. -/
theorem C6_merge_invocation_amended (st : RepipeCommand) (w : World) (config : String)
    (h : (merge_pipeline_config st w).1 = .ok config) :
    (merge_pipeline_config st w).2.filter
        (fun e => match e with | Eff.spawn p _ => p == "spruce" | _ => false)
      = [Eff.spawn "spruce"
          ["merge", "--fallback-append", "pipeline/base.yml",
           st.base_dir ++ "/pipeline/*/*.yml", st.settings_file]]
    ∧ w.runOutput "spruce" (spruceMergeArgs st) = some (true, config) := by
  cases htd : w.tempDirResult with
  | none =>
    unfold merge_pipeline_config at h
    rw [htd] at h
    simp at h
  | some td =>
    unfold merge_pipeline_config at h ⊢
    rw [htd] at h ⊢
    obtain ⟨htr, hrun⟩ := merge_inner_ok st w td config h
    refine ⟨?_, hrun⟩
    dsimp only
    rw [htr, runBuildScript_snd, runBuildScript_snd]
    cases hf1 : w.fileExists "scripts/build-test-jobs" <;>
      cases hf2 : w.fileExists "scripts/build-upstream-jobs" <;>
      simp [List.filter_append, spruceMergeArgs, List.filter]

/-- Witness for the amended C6 at the concrete counterexample world. -/
theorem C6_merge_invocation_amended_witness :
    ((merge_pipeline_config stC6 wC6).1 = .ok "merged")
    ∧ ((merge_pipeline_config stC6 wC6).2.filter
          (fun e => match e with | Eff.spawn p _ => p == "spruce" | _ => false)
        = [Eff.spawn "spruce"
            ["merge", "--fallback-append", "pipeline/base.yml",
             stC6.base_dir ++ "/pipeline/*/*.yml", stC6.settings_file]]
       ∧ wC6.runOutput "spruce" (spruceMergeArgs stC6) = some (true, "merged")) :=
  ⟨rfl, C6_merge_invocation_amended stC6 wC6 "merged" rfl⟩

/-- Metadata for the C1 failing input. -/
def metaC1 : PipelineMeta := { target := some "t", pipeline := some "p" }

/-- Concrete world for the C1 failing input: every step up to dispatch
succeeds, the merge produces a known text, and no .deploy.yml exists in the
working directory (the merge wrote it only inside the deleted temporary
directory). -/
def wC1 : World :=
  { envVar := fun v => if v == "HOME" then some "/home/u" else none,
    fileExists := fun p => p == "settings.yml",
    readFile := fun p => if p == "/home/u/.flyrc" then some "flyrc-contents" else none,
    tempDirResult := some "/tmp/t1",
    runOutput := fun p _ =>
      if p == "which" then some (true, "/usr/bin/x")
      else if p == "spruce" then some (true, "merged config text") else none,
    runPipedOutput := fun _ _ _ => some (true, "meta-json"),
    runStatus := fun _ _ => some 0,
    parseMeta := fun _ => some metaC1, parseFlyrc := fun _ => some { targets := [] },
    flyPathMeta := fun _ => none, openResult := fun _ => none }

/-- Concrete state for the C1 failing input: dry-run level 1, validate 0. -/
def stC1 : RepipeCommand := RepipeCommand.new { dry_run := 1 } "/repo/ci"

/-- Evaluation of the code at the C1 failing input: the merge succeeds with
a known text, yet the dry run reads the relative path .deploy.yml — which no
step wrote — so the command errors out and prints nothing to stdout instead
of printing the merged text; no fly subprocess is spawned. -/
theorem C1_dry_run_reads_unwritten_path :
    (merge_pipeline_config stC1 wC1).1 = .ok "merged config text"
    ∧ wC1.readFile ".deploy.yml" = none
    ∧ (execute stC1 wC1).1 = .error (.ioError "read .deploy.yml")
    ∧ ((execute stC1 wC1).2.countP fun e =>
         match e with
         | Eff.printStdout _ => true
         | _ => false) = 0
    ∧ ((execute stC1 wC1).2.countP isOrchestratorCall) = 0 := by
  refine ⟨rfl, rfl, rfl, ?_, ?_⟩ <;> decide

/-- Metadata for the C4 failing input. -/
def metaC4 : PipelineMeta := { target := some "t", pipeline := some "p" }

/-- Concrete world for the C4 failing input: identical to a fully healthy
apply run except that the set-pipeline call exits with status 1. -/
def wC4 : World :=
  { envVar := fun v => if v == "HOME" then some "/home/u" else none,
    fileExists := fun p => p == "settings.yml",
    readFile := fun p => if p == "/home/u/.flyrc" then some "flyrc-contents" else none,
    tempDirResult := some "/tmp/t4",
    runOutput := fun p _ =>
      if p == "which" then some (true, "/usr/bin/x")
      else if p == "spruce" then some (true, "merged") else none,
    runPipedOutput := fun _ _ _ => some (true, "meta-json"),
    runStatus := fun _ args => if args.contains "set-pipeline" then some 1 else some 0,
    parseMeta := fun _ => some metaC4, parseFlyrc := fun _ => some { targets := [] },
    flyPathMeta := fun _ => none, openResult := fun _ => none }

/-- Concrete state for the C4 failing input: plain apply mode. -/
def stC4 : RepipeCommand := RepipeCommand.new {} "/repo/ci"

/-- Evaluation of the code at the C4 failing input: the set-pipeline call
exits with the non-zero status 1, yet the command ignores the exit status
(only a spawn failure propagates), issues the two remaining remote calls
anyway, and finishes reporting success — the failure is neither fatal nor
propagated. -/
theorem C4_exit_status_ignored :
    wC4.runStatus "fly"
        ["--target", "t", "set-pipeline", "--pipeline", "p", "--config", ".deploy.yml"]
      = some 1
    ∧ (execute stC4 wC4).1 = .ok ()
    ∧ ((execute stC4 wC4).2.countP isOrchestratorCall) = 3
    ∧ Eff.spawn "fly" ["--target", "t", "unpause-pipeline", "--pipeline", "p"]
        ∈ (execute stC4 wC4).2
    ∧ Eff.spawn "fly" ["--target", "t", "hide-pipeline", "--pipeline", "p"]
        ∈ (execute stC4 wC4).2 := by
  refine ⟨by decide, rfl, ?_, ?_, ?_⟩ <;> decide

end GkmCli
